import Mathlib

/-!
Formal model of the school-blog REST backend (tech-challenge-2).

The controllers (`postController.js`, `studentController.js`,
`teacherController`, `authController`) are translated as pure functions over
explicit state: the document store becomes lists of records, `req.user`
becomes an `AuthUser` value decoded from the bearer token, timestamps and
generated ids become explicit parameters, and the bcrypt / sha256 primitives
become abstract function parameters.  Each HTTP handler returns its status
code, its response message and the post-state of the affected document(s).
-/

/-- A comment embedded in a post.  Mongoose subdocument ids are modelled as
strings (`cid`); `createdAt` is a numeric timestamp. -/
structure Comment where
  cid : String
  author : String
  role : String
  comment : String
  createdAt : Nat
deriving DecidableEq, Repr

/-- A blog post.  The mongoose model file is not in the repository snapshot;
the field list is taken from the controller destructurings and the embedded
comment sequence keeps insertion order as a `List`. -/
structure Post where
  pid : String
  title : String
  content : String
  author : String
  description : String
  isActive : Bool
  readTime : String
  comments : List Comment
  createdAt : Nat
  updatedAt : Nat
deriving DecidableEq, Repr

/-- The identity attached to the request by the auth middleware: the `name`
and `role` claims of the verified JWT (`req.user`). -/
structure AuthUser where
  name : String
  role : String
deriving DecidableEq, Repr

/-- The request body for post creation / update, as destructured by
`createPost` and `updatePost` (`updatePost` deliberately never reads the
`comments` field). -/
structure PostBody where
  title : String
  content : String
  author : String
  isActive : Bool
  readTime : String
  description : String
  comments : List Comment
deriving DecidableEq, Repr

/-- Response of a single-post handler: HTTP status, message and the state of
the targeted post after the call (`none` when it does not exist / was
deleted). -/
structure PResp where
  status : Nat
  message : String
  post : Option Post
deriving DecidableEq, Repr

/-- Response of a list-returning post handler. -/
structure ListResp where
  status : Nat
  message : String
  posts : List Post
deriving DecidableEq, Repr

/-- `post.comments.id(commentId)`: locate an embedded comment by id. -/
def commentsId (comments : List Comment) (commentId : String) : Option Comment :=
  comments.find? (fun c => c.cid == commentId)

/-- `post.comments.pull(commentId)`: remove the comment(s) with the given id,
keeping the relative order of the remaining comments. -/
def commentsPull (comments : List Comment) (commentId : String) : List Comment :=
  comments.filter (fun c => c.cid != commentId)

/-- Whether the first character list starts the second one. -/
def leadsWith : List Char → List Char → Bool
  | [], _ => true
  | _ :: _, [] => false
  | a :: as, b :: bs => a == b && leadsWith as bs

/-- Whether the needle occurs contiguously inside the haystack. -/
def hasSub (needle : List Char) : List Char → Bool
  | [] => leadsWith needle []
  | c :: rest => leadsWith needle (c :: rest) || hasSub needle rest

/-- Case-insensitive substring match: the semantics of the controller's
`new RegExp(query, 'i')` Mongo filter for a plain (metacharacter-free)
query string. -/
def ciMatches (q text : String) : Bool :=
  hasSub (q.toList.map Char.toLower) (text.toList.map Char.toLower)

/-- `GET /posts` — professors see every post, any other authenticated role
only those with `isActive == true`.  (The store-side `sort({createdAt:-1})`
only reorders the result and is not modelled.) -/
def getAllPosts (u : AuthUser) (posts : List Post) : List Post :=
  let isProfessor := u.role == "professor"
  if isProfessor then posts else posts.filter (fun p => p.isActive)

/-- `GET /posts/:id` — non-professors get the `isActive: true` conjunct added
to the store filter, so an inactive post is indistinguishable from a missing
one. -/
def getPostById (u : AuthUser) (posts : List Post) (id : String) : PResp :=
  let isProfessor := u.role == "professor"
  let post := posts.find? (fun p => p.pid == id && (isProfessor || p.isActive))
  match post with
  | none => ⟨404, "Post não encontrado.", none⟩
  | some p => ⟨200, "", some p⟩

/-- `POST /posts` — professor-only; the whole destructured body, including a
client-supplied `comments` array, is handed to the new document. -/
def createPost (u : AuthUser) (body : PostBody) (now : Nat) (newId : String) : PResp :=
  if u.role != "professor" then
    ⟨401, "Acesso restrito a professores.", none⟩
  else
    let newPost : Post :=
      { pid := newId
        title := body.title
        content := body.content
        author := body.author
        description := body.description
        isActive := body.isActive
        readTime := body.readTime
        comments := body.comments
        createdAt := now
        updatedAt := now }
    ⟨201, "", some newPost⟩

/-- `PUT /posts/:id` — professor-only; only the whitelisted fields plus
`updatedAt` are written, the body's `comments` field is never read. -/
def updatePost (u : AuthUser) (post : Option Post) (body : PostBody) (now : Nat) : PResp :=
  if u.role != "professor" then
    ⟨401, "Acesso restrito a professores.", post⟩
  else
    match post with
    | none => ⟨404, "Post não encontrado.", none⟩
    | some p =>
        let updated : Post :=
          { p with
              title := body.title
              content := body.content
              author := body.author
              updatedAt := now
              isActive := body.isActive
              readTime := body.readTime
              description := body.description }
        ⟨200, "", some updated⟩

/-- `DELETE /posts/:id` — professor-only. -/
def deletePost (u : AuthUser) (post : Option Post) : PResp :=
  if u.role != "professor" then
    ⟨401, "Acesso restrito a professores.", post⟩
  else
    match post with
    | none => ⟨404, "Post não encontrado.", none⟩
    | some _ => ⟨200, "Post excluído com sucesso.", none⟩

/-- `GET /posts/search?q=` — open to professors and students alike, and the
store filter carries no `isActive` conjunct: only the four text fields are
matched. -/
def searchPosts (u : AuthUser) (posts : List Post) (q : String) : ListResp :=
  if u.role != "professor" && u.role != "aluno" then
    ⟨401, "Acesso restrito a professores e alunos.", []⟩
  else
    ⟨200, "", posts.filter (fun p =>
      ciMatches q p.title || ciMatches q p.content ||
      ciMatches q p.author || ciMatches q p.description)⟩

/-- `POST /posts/:id/comments` — author and role are taken from the decoded
JWT (`req.user`), never from the body; the new comment is appended. -/
def addComment (u : AuthUser) (post : Option Post) (text : String)
    (now : Nat) (newCid : String) : PResp :=
  match post with
  | none => ⟨404, "Post não encontrado.", none⟩
  | some p =>
      let newComment : Comment :=
        { cid := newCid
          author := u.name
          role := u.role
          comment := text
          createdAt := now }
      ⟨201, "", some { p with comments := p.comments ++ [newComment] }⟩

/-- `PUT /posts/:id/comments/:commentId` — only the identical (author, role)
pair may edit, and only the text field is replaced. -/
def updateComment (u : AuthUser) (post : Option Post) (commentId : String)
    (text : String) : PResp :=
  match post with
  | none => ⟨404, "Post não encontrado.", none⟩
  | some p =>
      match commentsId p.comments commentId with
      | none => ⟨404, "Comentário não encontrado.", some p⟩
      | some c =>
          if c.author == u.name && c.role == u.role then
            ⟨200, "", some { p with comments := p.comments.map (fun x =>
              if x.cid == commentId then { x with comment := text } else x) }⟩
          else
            ⟨403, "Você só pode atualizar seus próprios comentários.", some p⟩

/-- The `canDelete` authorization expression of `deleteComment`, verbatim:
self-delete, professor-over-student, or professor deleting their own
professor comment. -/
def canDelete (u : AuthUser) (c : Comment) : Bool :=
  (c.author == u.name && c.role == u.role) ||
  (u.role == "professor" && c.role == "aluno") ||
  (u.role == "professor" && c.role == "professor" && c.author == u.name)

/-- `DELETE /posts/:id/comments/:commentId`. -/
def deleteComment (u : AuthUser) (post : Option Post) (commentId : String) : PResp :=
  match post with
  | none => ⟨404, "Post não encontrado.", none⟩
  | some p =>
      match commentsId p.comments commentId with
      | none => ⟨404, "Comentário não encontrado.", some p⟩
      | some c =>
          if canDelete u c then
            ⟨200, "Comentário deletado com sucesso.",
              some { p with comments := commentsPull p.comments commentId }⟩
          else
            ⟨403, "Você não tem permissão para deletar este comentário.", some p⟩

/-- A stored principal record (Teacher or Student collection member).  The
mongoose model files are absent from the snapshot; the field list follows the
controller code (`isActive` is the flag `login` checks, `status` the string
field `createTeacher` writes). -/
structure Principal where
  name : String
  email : String
  password : String
  isActive : Bool
  status : String
  createdAt : Nat
deriving DecidableEq, Repr

/-- The document store as the auth subsystem sees it: the Teacher collection
and the Student collection. -/
structure DB where
  teachers : List Principal
  students : List Principal
deriving DecidableEq, Repr

/-- `Model.findOne({ email })`. -/
def findByEmail (coll : List Principal) (email : String) : Option Principal :=
  coll.find? (fun p => p.email == email)

/-- The claim set placed in the issued JWT and echoed in the login response
body. -/
structure TokenClaims where
  email : String
  role : String
  name : String
deriving DecidableEq, Repr

/-- Outcome of the login handler: an error status with its message, or a
successful issuance carrying the token claims. -/
inductive LoginResult where
  | failure (status : Nat) (message : String)
  | success (user : TokenClaims)
deriving DecidableEq, Repr

/-- Principal resolution of `login` (lines 20-27 of the auth controller):
look the email up in the Teacher collection first with role `professor`,
fall back to the Student collection with role `aluno`. -/
def resolve (db : DB) (email : String) : Option (Principal × String) :=
  match findByEmail db.teachers email with
  | some t => some (t, "professor")
  | none =>
      match findByEmail db.students email with
      | some s => some (s, "aluno")
      | none => none

/-- `POST /login`.  `gate` is the server-side sha256 hex of the shared
secret; `check` abstracts `bcrypt.compare`. -/
def login (gate : String) (check : String → String → Bool)
    (db : DB) (email senha palavraPasse : String) : LoginResult :=
  if palavraPasse != gate then
    .failure 401 "Palavra-passe incorreta."
  else
    match resolve db email with
    | none => .failure 401 "Email ou senha incorretos."
    | some (usuario, role) =>
        if !usuario.isActive then
          .failure 401 "Usuário inativo."
        else if !(check senha usuario.password) then
          .failure 401 "Email ou senha incorretos."
        else
          .success { email := usuario.email, role := role, name := usuario.name }

/-- Response of the teacher/student management handlers that return a list of
records (passwords stripped by `select('-password')`, modelled by blanking
the field). -/
structure PrincipalListResp where
  status : Nat
  message : String
  records : List Principal
deriving DecidableEq, Repr

/-- Response of the create-principal handlers: status, message and the store
after the call. -/
structure CreateResp where
  status : Nat
  message : String
  db : DB
deriving DecidableEq, Repr

/-- `GET /students` — professor-only, answered with 403 otherwise.  (The
store-side sort is not modelled; passwords are blanked.) -/
def getAllStudents (u : AuthUser) (db : DB) : PrincipalListResp :=
  if u.role != "professor" then
    ⟨403, "Acesso restrito a professores.", []⟩
  else
    ⟨200, "", db.students.map (fun p => { p with password := "" })⟩

/-- `POST /students` — professor-only; the email must be free in BOTH the
Student and the Teacher collection; `hash` abstracts `bcrypt.hash`. -/
def createStudent (hash : String → String) (u : AuthUser) (db : DB)
    (name email password : String) (isActive : Option Bool) (now : Nat) : CreateResp :=
  if u.role != "professor" then
    ⟨403, "Acesso restrito a professores.", db⟩
  else if (findByEmail db.students email).isSome then
    ⟨400, "Email já cadastrado.", db⟩
  else if (findByEmail db.teachers email).isSome then
    ⟨400, "Email já cadastrado.", db⟩
  else
    let newStudent : Principal :=
      { name := name
        email := email
        password := hash password
        isActive := isActive.getD true
        status := "ativo"
        createdAt := now }
    ⟨201, "", { db with students := db.students ++ [newStudent] }⟩

/-- `POST /teachers` — professor-only; the duplicate-email check queries the
Teacher collection ONLY (`Teacher.findOne({ email })`); the Student
collection is never consulted.  `isActive` defaults to true in the model. -/
def createTeacher (hash : String → String) (u : AuthUser) (db : DB)
    (name email password : String) (status : Option String) (now : Nat) : CreateResp :=
  if u.role != "professor" then
    ⟨403, "Acesso restrito a professores.", db⟩
  else if (findByEmail db.teachers email).isSome then
    ⟨400, "Email já cadastrado.", db⟩
  else
    let newTeacher : Principal :=
      { name := name
        email := email
        password := hash password
        isActive := true
        status := status.getD "ativo"
        createdAt := now }
    ⟨201, "", { db with teachers := db.teachers ++ [newTeacher] }⟩

/-- Auxiliary: mapping a function that does not disturb the search predicate
commutes with `find?`. -/
theorem find?_map_of_pred {α : Type} (f : α → α) (p : α → Bool)
    (hf : ∀ x, p (f x) = p x) (l : List α) (c : α)
    (h : l.find? p = some c) : (l.map f).find? p = some (f c) := by
  induction l with
  | nil => simp [List.find?] at h
  | cons a l ih =>
      rw [List.find?_cons] at h
      rw [List.map_cons, List.find?_cons, hf a]
      cases hpa : p a with
      | true =>
          rw [hpa] at h
          injection h with h
          subst h
          rfl
      | false =>
          rw [hpa] at h
          exact ih h

/-- C1: the delete-comment operation succeeds exactly when the acting
principal matches the comment's stored (author, role), or is a professor
deleting a student comment, or is a professor deleting their own professor
comment; no professor can delete another professor's comment; whenever all
three cases fail the full response is 403 with the permission message and
the post unchanged; on success the comment is removed and the relative order
of the remaining comments is preserved. -/
theorem deleteComment_rules (u : AuthUser) (p : Post) (commentId : String)
    (c : Comment) (hc : commentsId p.comments commentId = some c) :
    ((deleteComment u (some p) commentId).status = 200 ↔
      ((c.author = u.name ∧ c.role = u.role) ∨
       (u.role = "professor" ∧ c.role = "aluno") ∨
       (u.role = "professor" ∧ c.role = "professor" ∧ c.author = u.name))) ∧
    ((u.role = "professor" ∧ c.role = "professor" ∧ c.author ≠ u.name) →
      deleteComment u (some p) commentId =
        ⟨403, "Você não tem permissão para deletar este comentário.", some p⟩) ∧
    (¬((c.author = u.name ∧ c.role = u.role) ∨
       (u.role = "professor" ∧ c.role = "aluno") ∨
       (u.role = "professor" ∧ c.role = "professor" ∧ c.author = u.name)) →
      deleteComment u (some p) commentId =
        ⟨403, "Você não tem permissão para deletar este comentário.", some p⟩) ∧
    ((deleteComment u (some p) commentId).status = 200 →
      ∃ q, (deleteComment u (some p) commentId).post = some q ∧
        q.comments = commentsPull p.comments commentId ∧
        q.comments.Sublist p.comments ∧ c ∉ q.comments) := by
  have hcd : canDelete u c = true ↔
      ((c.author = u.name ∧ c.role = u.role) ∨
       (u.role = "professor" ∧ c.role = "aluno") ∨
       (u.role = "professor" ∧ c.role = "professor" ∧ c.author = u.name)) := by
    simp only [canDelete, Bool.or_eq_true, Bool.and_eq_true, beq_iff_eq]
    tauto
  have hcid0 := List.find?_some
    (show List.find? (fun x => x.cid == commentId) p.comments = some c from hc)
  have hcid : (c.cid == commentId) = true := hcid0
  cases hdel : canDelete u c with
  | true =>
      have hres : deleteComment u (some p) commentId =
          ⟨200, "Comentário deletado com sucesso.",
            some { p with comments := commentsPull p.comments commentId }⟩ := by
        simp [deleteComment, hc, hdel]
      refine ⟨?_, ?_, ?_, ?_⟩
      · rw [hres]
        simpa using hcd.mp hdel
      · intro hpp
        exfalso
        rcases hcd.mp hdel with h1 | h2 | h3
        · exact hpp.2.2 h1.1
        · rw [hpp.2.1] at h2
          exact absurd h2.2 (by decide)
        · exact hpp.2.2 h3.2.2
      · intro hn
        exact absurd (hcd.mp hdel) hn
      · intro _
        refine ⟨{ p with comments := commentsPull p.comments commentId },
          by rw [hres], rfl, List.filter_sublist p.comments, ?_⟩
        intro hmem
        have := (List.mem_filter.mp hmem).2
        rw [bne_iff_ne] at this
        exact this (by exact beq_iff_eq.mp hcid)
  | false =>
      have hres : deleteComment u (some p) commentId =
          ⟨403, "Você não tem permissão para deletar este comentário.", some p⟩ := by
        simp [deleteComment, hc, hdel]
      refine ⟨?_, ?_, ?_, ?_⟩
      · rw [hres]
        constructor
        · intro hst
          simp at hst
        · intro hcond
          exact absurd (hcd.mpr hcond) (by rw [hdel]; decide)
      · intro _
        exact hres
      · intro _
        exact hres
      · rw [hres]
        intro hst
        simp at hst

/-- Witness for C1: a professor cannot delete a different professor's
comment — the full 403 response with the permission message and the
unchanged post, checked on a concrete post. -/
theorem deleteComment_rules_witness :
    deleteComment ⟨"Ana", "professor"⟩
      (some ⟨"p1", "T", "C", "A", "D", true, "5 min",
        [⟨"c1", "Bea", "professor", "oi", 0⟩], 0, 0⟩) "c1" =
      ⟨403, "Você não tem permissão para deletar este comentário.",
        some ⟨"p1", "T", "C", "A", "D", true, "5 min",
          [⟨"c1", "Bea", "professor", "oi", 0⟩], 0, 0⟩⟩ :=
  (deleteComment_rules ⟨"Ana", "professor"⟩
    ⟨"p1", "T", "C", "A", "D", true, "5 min",
      [⟨"c1", "Bea", "professor", "oi", 0⟩], 0, 0⟩ "c1"
    ⟨"c1", "Bea", "professor", "oi", 0⟩ (by decide)).2.1 (by decide)

/-- C2: the update-comment operation succeeds exactly when the acting
principal's (name, role) equals the comment's stored (author, role) — no
professor override; any mismatch returns 403 with the post unchanged, and on
success only the comment's text changes while author, role and createdAt are
untouched. -/
theorem updateComment_owner_only (u : AuthUser) (p : Post) (commentId text : String)
    (c : Comment) (hc : commentsId p.comments commentId = some c) :
    ((updateComment u (some p) commentId text).status = 200 ↔
      (c.author = u.name ∧ c.role = u.role)) ∧
    (¬(c.author = u.name ∧ c.role = u.role) →
      updateComment u (some p) commentId text =
        ⟨403, "Você só pode atualizar seus próprios comentários.", some p⟩) ∧
    ((c.author = u.name ∧ c.role = u.role) →
      ∃ q, (updateComment u (some p) commentId text).post = some q ∧
        commentsId q.comments commentId = some { c with comment := text } ∧
        q.comments.length = p.comments.length ∧
        ∀ x ∈ p.comments, (x.cid == commentId) = false → x ∈ q.comments) := by
  cases hok : (c.author == u.name && c.role == u.role) with
  | true =>
      have hcnd : c.author = u.name ∧ c.role = u.role := by
        simpa [Bool.and_eq_true, beq_iff_eq] using hok
      have hres : updateComment u (some p) commentId text =
          ⟨200, "", some { p with comments := p.comments.map (fun x =>
            if x.cid == commentId then { x with comment := text } else x) }⟩ := by
        simp [updateComment, hc, hok]
      have hcid0 := List.find?_some
        (show List.find? (fun x => x.cid == commentId) p.comments = some c from hc)
      have hcid : (c.cid == commentId) = true := hcid0
      refine ⟨?_, ?_, ?_⟩
      · rw [hres]
        simpa using hcnd
      · intro hn
        exact absurd hcnd hn
      · intro _
        have hmap := find?_map_of_pred
          (fun x : Comment => if x.cid == commentId then { x with comment := text } else x)
          (fun x : Comment => x.cid == commentId)
          (by intro x; cases hx : (x.cid == commentId) <;> simp [hx])
          p.comments c hc
        have hphi : some ((fun x : Comment =>
            if x.cid == commentId then { x with comment := text } else x) c) =
            some ({ c with comment := text } : Comment) := by
          simp [hcid]
        refine ⟨{ p with comments := p.comments.map (fun x : Comment =>
            if x.cid == commentId then { x with comment := text } else x) },
          by rw [hres], hmap.trans hphi, by simp, ?_⟩
        intro x hx hxid
        refine List.mem_map.mpr ⟨x, hx, ?_⟩
        simp [hxid]
  | false =>
      have hcnd : ¬(c.author = u.name ∧ c.role = u.role) := by
        intro hand
        have : (c.author == u.name && c.role == u.role) = true := by
          simp [Bool.and_eq_true, beq_iff_eq, hand.1, hand.2]
        rw [hok] at this
        exact absurd this (by decide)
      have hres : updateComment u (some p) commentId text =
          ⟨403, "Você só pode atualizar seus próprios comentários.", some p⟩ := by
        simp [updateComment, hc, hok]
      refine ⟨?_, fun _ => hres, fun hand => absurd hand hcnd⟩
      rw [hres]
      constructor
      · intro hst
        simp at hst
      · intro hand
        exact absurd hand hcnd

/-- Witness for C2: a professor trying to edit a student's comment gets 403
and the post is unchanged, on a concrete post. -/
theorem updateComment_owner_only_witness :
    updateComment ⟨"Matheus", "professor"⟩
      (some ⟨"p1", "T", "C", "A", "D", true, "5 min",
        [⟨"c1", "João", "aluno", "oi", 0⟩], 0, 0⟩) "c1" "novo" =
      ⟨403, "Você só pode atualizar seus próprios comentários.",
        some ⟨"p1", "T", "C", "A", "D", true, "5 min",
          [⟨"c1", "João", "aluno", "oi", 0⟩], 0, 0⟩⟩ :=
  (updateComment_owner_only ⟨"Matheus", "professor"⟩
    ⟨"p1", "T", "C", "A", "D", true, "5 min",
      [⟨"c1", "João", "aluno", "oi", 0⟩], 0, 0⟩ "c1" "novo"
    ⟨"c1", "João", "aluno", "oi", 0⟩ (by decide)).2.1 (by decide)

/-- C3: the generic post-update operation never changes the embedded
comments sequence (nor createdAt, nor the id), whatever the payload — even
one carrying a non-empty comments array; on success only title, content,
author, description, isActive, readTime and updatedAt are written, from the
payload. -/
theorem updatePost_preserves_comments (u : AuthUser) (p : Post) (body : PostBody) (now : Nat) :
    ∀ q, (updatePost u (some p) body now).post = some q →
      q.comments = p.comments ∧ q.createdAt = p.createdAt ∧ q.pid = p.pid ∧
      ((updatePost u (some p) body now).status = 200 →
        q.title = body.title ∧ q.content = body.content ∧ q.author = body.author ∧
        q.description = body.description ∧ q.isActive = body.isActive ∧
        q.readTime = body.readTime ∧ q.updatedAt = now) := by
  intro q hq
  cases hrole : (u.role != "professor") with
  | true =>
      have hres : updatePost u (some p) body now =
          ⟨401, "Acesso restrito a professores.", some p⟩ := by
        simp [updatePost, hrole]
      rw [hres] at hq ⊢
      injection hq with hq
      subst hq
      refine ⟨rfl, rfl, rfl, ?_⟩
      intro hst
      simp at hst
  | false =>
      have hres : updatePost u (some p) body now =
          ⟨200, "",
            some { p with
                     title := body.title
                     content := body.content
                     author := body.author
                     updatedAt := now
                     isActive := body.isActive
                     readTime := body.readTime
                     description := body.description }⟩ := by
        simp [updatePost, hrole]
      rw [hres] at hq ⊢
      injection hq with hq
      subst hq
      exact ⟨rfl, rfl, rfl, fun _ => ⟨rfl, rfl, rfl, rfl, rfl, rfl, rfl⟩⟩

/-- Witness for C3: updating a concrete post with a payload that carries a
non-empty comments array leaves the stored comments untouched. -/
theorem updatePost_preserves_comments_witness :
    Post.comments ⟨"p1", "T2", "C2", "A2", "D2", false, "9 min",
      [⟨"c1", "João", "aluno", "oi", 0⟩], 0, 3⟩ =
      [⟨"c1", "João", "aluno", "oi", 0⟩] := by
  have h := updatePost_preserves_comments ⟨"Matheus", "professor"⟩
    ⟨"p1", "T", "C", "A", "D", true, "5 min",
      [⟨"c1", "João", "aluno", "oi", 0⟩], 0, 0⟩
    ⟨"T2", "C2", "A2", false, "9 min", "D2",
      [⟨"c9", "X", "aluno", "spam", 7⟩]⟩ 3
    ⟨"p1", "T2", "C2", "A2", "D2", false, "9 min",
      [⟨"c1", "João", "aluno", "oi", 0⟩], 0, 3⟩ (by decide)
  exact h.1.trans rfl

/-- Counterexample to C4: post creation persists a client-supplied comments
array verbatim — a professor principal named Matheus creates a post whose
stored comment carries the client-supplied author João with role aluno. -/
theorem createPost_stores_client_supplied_comments :
    (createPost ⟨"Matheus", "professor"⟩
      ⟨"Primeiro Post", "Conteúdo qualquer", "Matheus", true, "5 min", "desc",
        [⟨"c9", "João", "aluno", "Muito bom!", 5⟩]⟩ 10 "p1").post.map Post.comments =
      some [⟨"c9", "João", "aluno", "Muito bom!", 5⟩] ∧
    ("João" : String) ≠ "Matheus" :=
  ⟨rfl, by decide⟩

/-- C4 (amended): a comment created through the add-comment operation always
carries the acting principal's token name and role; but the create-post
operation persists the client-supplied comments array verbatim, so post
creation can store comments with arbitrary client-supplied author and
role. -/
theorem comment_identity_from_token (u : AuthUser) (p : Post) (text : String)
    (now : Nat) (newCid : String) :
    (∀ q, (addComment u (some p) text now newCid).post = some q →
      ∀ c ∈ q.comments, c ∈ p.comments ∨ (c.author = u.name ∧ c.role = u.role)) ∧
    (∀ body nid q2, (createPost u body now nid).post = some q2 →
      q2.comments = body.comments) := by
  constructor
  · intro q hq c hcq
    injection hq with hq
    subst hq
    rcases List.mem_append.mp hcq with h1 | h2
    · exact Or.inl h1
    · right
      have hc : c = ⟨newCid, u.name, u.role, text, now⟩ := by simpa using h2
      rw [hc]
      exact ⟨rfl, rfl⟩
  · intro body nid q2 hq2
    cases hrole : (u.role != "professor") with
    | true =>
        have : createPost u body now nid = ⟨401, "Acesso restrito a professores.", none⟩ := by
          simp [createPost, hrole]
        rw [this] at hq2
        simp at hq2
    | false =>
        have : createPost u body now nid =
            ⟨201, "",
              some { pid := nid
                     title := body.title
                     content := body.content
                     author := body.author
                     description := body.description
                     isActive := body.isActive
                     readTime := body.readTime
                     comments := body.comments
                     createdAt := now
                     updatedAt := now }⟩ := by
          simp [createPost, hrole]
        rw [this] at hq2
        injection hq2 with hq2
        subst hq2
        rfl

/-- Witness for C4 (amended): a comment appended by a concrete student Ana
indeed carries Ana's token name and role. -/
theorem comment_identity_from_token_witness :
    (⟨"c1", "Ana", "aluno", "oi", 2⟩ : Comment) ∈ ([] : List Comment) ∨
      ((⟨"c1", "Ana", "aluno", "oi", 2⟩ : Comment).author = "Ana" ∧
       (⟨"c1", "Ana", "aluno", "oi", 2⟩ : Comment).role = "aluno") :=
  (comment_identity_from_token ⟨"Ana", "aluno"⟩
    ⟨"p1", "T", "C", "A", "D", true, "5 min", [], 0, 0⟩ "oi" 2 "c1").1
    ⟨"p1", "T", "C", "A", "D", true, "5 min", [⟨"c1", "Ana", "aluno", "oi", 2⟩], 0, 0⟩
    (by decide) ⟨"c1", "Ana", "aluno", "oi", 2⟩ (by decide)

/-- C5: with the shared-secret gate passed, principal resolution queries the
Teacher collection first and the Student collection only on a miss: a hit in
the Teacher collection makes the outcome independent of the Student
collection and any issued claims carry role professor and the teacher
record's identity; a miss in both collections yields the generic 401. -/
theorem login_teacher_precedence (gate : String) (check : String → String → Bool)
    (db : DB) (email senha : String) :
    (findByEmail db.teachers email = none → findByEmail db.students email = none →
      login gate check db email senha gate = .failure 401 "Email ou senha incorretos.") ∧
    (∀ t, findByEmail db.teachers email = some t →
      (∀ students2, login gate check ⟨db.teachers, students2⟩ email senha gate =
          login gate check db email senha gate) ∧
      (∀ claims, login gate check db email senha gate = .success claims →
        claims.role = "professor" ∧ claims.email = t.email ∧ claims.name = t.name)) := by
  constructor
  · intro ht hs
    simp [login, resolve, ht, hs]
  · intro t ht
    constructor
    · intro students2
      simp [login, resolve, ht]
    · intro claims hcl
      have hres : resolve db email = some (t, "professor") := by simp [resolve, ht]
      simp only [login, bne_self_eq_false, Bool.false_eq_true, if_false, hres] at hcl
      cases hact : t.isActive with
      | false => rw [hact] at hcl; simp at hcl
      | true =>
          rw [hact] at hcl
          cases hchk : check senha t.password with
          | false => rw [hchk] at hcl; simp at hcl
          | true =>
              rw [hchk] at hcl
              simp only [Bool.not_true, Bool.false_eq_true, if_false] at hcl
              injection hcl with hcl
              rw [← hcl]
              exact ⟨rfl, rfl, rfl⟩

/-- Witness for C5: an email present in neither collection fails with the
generic message. -/
theorem login_teacher_precedence_witness :
    login "g" (fun _ _ => true) ⟨[], []⟩ "x@e.com" "s" "g" =
      .failure 401 "Email ou senha incorretos." :=
  (login_teacher_precedence "g" (fun _ _ => true) ⟨[], []⟩ "x@e.com" "s").1 rfl rfl

/-- C6: once the shared-secret gate is passed and the email resolves to an
inactive principal, login fails with 401 "Usuário inativo." for every
password-check oracle and every declared password — the password comparison
is never reached. -/
theorem login_inactive_short_circuit (gate : String) (db : DB) (email : String)
    (u : Principal) (role : String)
    (hres : resolve db email = some (u, role)) (hinact : u.isActive = false) :
    ∀ check senha, login gate check db email senha gate =
      .failure 401 "Usuário inativo." := by
  intro check senha
  simp [login, hres, hinact]

/-- Witness for C6: a concrete inactive teacher is refused even though the
password oracle would accept anything. -/
theorem login_inactive_short_circuit_witness :
    login "g" (fun _ _ => true)
      ⟨[⟨"Profa", "p@e.com", "h", false, "ativo", 0⟩], []⟩ "p@e.com" "whatever" "g" =
      .failure 401 "Usuário inativo." :=
  login_inactive_short_circuit "g" ⟨[⟨"Profa", "p@e.com", "h", false, "ativo", 0⟩], []⟩
    "p@e.com" ⟨"Profa", "p@e.com", "h", false, "ativo", 0⟩ "professor" (by decide) rfl
    (fun _ _ => true) "whatever"

/-- C7: for any caller whose token role is not professor, the post-management
handlers answer 401 with the restricted-to-professors message, while the
teacher/student-management handlers answer 403 with the same parallel
message — the 401-versus-403 split holds on every such request. -/
theorem role_guard_status_split (u : AuthUser) (h : u.role ≠ "professor") :
    (∀ body now nid, createPost u body now nid =
      ⟨401, "Acesso restrito a professores.", none⟩) ∧
    (∀ post body now, updatePost u post body now =
      ⟨401, "Acesso restrito a professores.", post⟩) ∧
    (∀ post, deletePost u post = ⟨401, "Acesso restrito a professores.", post⟩) ∧
    (∀ db, getAllStudents u db = ⟨403, "Acesso restrito a professores.", []⟩) ∧
    (∀ hash db nm email pw act now, createStudent hash u db nm email pw act now =
      ⟨403, "Acesso restrito a professores.", db⟩) ∧
    (∀ hash db nm email pw st now, createTeacher hash u db nm email pw st now =
      ⟨403, "Acesso restrito a professores.", db⟩) := by
  have hb : (u.role != "professor") = true := by simpa [bne_iff_ne] using h
  refine ⟨?_, ?_, ?_, ?_, ?_, ?_⟩ <;> intros <;>
    simp [createPost, updatePost, deletePost, getAllStudents, createStudent,
      createTeacher, hb]

/-- Witness for C7: a concrete student token gets 401 on post creation and
403 on the student list. -/
theorem role_guard_status_split_witness :
    createPost ⟨"João", "aluno"⟩ ⟨"T", "C", "A", true, "5 min", "D", []⟩ 0 "p1" =
      ⟨401, "Acesso restrito a professores.", none⟩ ∧
    getAllStudents ⟨"João", "aluno"⟩ ⟨[], []⟩ =
      ⟨403, "Acesso restrito a professores.", []⟩ :=
  ⟨(role_guard_status_split ⟨"João", "aluno"⟩ (by decide)).1
      ⟨"T", "C", "A", true, "5 min", "D", []⟩ 0 "p1",
   (role_guard_status_split ⟨"João", "aluno"⟩ (by decide)).2.2.2.1 ⟨[], []⟩⟩

/-- C8: the post list returns every post for a professor and exactly the
active posts for any other role; and read-by-id of an inactive post as a
non-professor is the same 404 response as for an id that matches no post at
all. -/
theorem post_visibility_filter (u : AuthUser) (posts : List Post) :
    (u.role = "professor" → getAllPosts u posts = posts) ∧
    (u.role ≠ "professor" → getAllPosts u posts = posts.filter (fun p => p.isActive)) ∧
    (∀ id, (∀ q ∈ posts, q.pid ≠ id) →
      getPostById u posts id = ⟨404, "Post não encontrado.", none⟩) ∧
    (u.role ≠ "professor" → ∀ p ∈ posts, p.isActive = false →
      (∀ q ∈ posts, q.pid = p.pid → q = p) →
      getPostById u posts p.pid = ⟨404, "Post não encontrado.", none⟩) := by
  refine ⟨?_, ?_, ?_, ?_⟩
  · intro hp
    simp [getAllPosts, hp]
  · intro hp
    have hb : (u.role == "professor") = false := by
      rw [beq_eq_false_iff_ne]
      exact hp
    simp [getAllPosts, hb]
  · intro id hid
    have hnone : posts.find?
        (fun p => p.pid == id && ((u.role == "professor") || p.isActive)) = none := by
      rw [List.find?_eq_none]
      intro x hx
      cases hpid : (x.pid == id) with
      | false => simp [hpid]
      | true => exact absurd (beq_iff_eq.mp hpid) (hid x hx)
    simp [getPostById, hnone]
  · intro hrole p hp hinact huniq
    have hb : (u.role == "professor") = false := by
      rw [beq_eq_false_iff_ne]
      exact hrole
    have hnone : posts.find?
        (fun q => q.pid == p.pid && ((u.role == "professor") || q.isActive)) = none := by
      rw [List.find?_eq_none]
      intro x hx
      rw [hb]
      cases hqid : (x.pid == p.pid) with
      | false => simp [hqid]
      | true =>
          have hxp : x = p := huniq x hx (beq_iff_eq.mp hqid)
          subst hxp
          simp [hinact]
    simp [getPostById, hnone]

/-- Witness for C8: a professor sees a concrete inactive post in the list
while a student reading it by id gets the not-found 404. -/
theorem post_visibility_filter_witness :
    getAllPosts ⟨"Matheus", "professor"⟩
      [⟨"p1", "T", "C", "A", "D", false, "5 min", [], 0, 0⟩] =
      [⟨"p1", "T", "C", "A", "D", false, "5 min", [], 0, 0⟩] ∧
    getPostById ⟨"João", "aluno"⟩
      [⟨"p1", "T", "C", "A", "D", false, "5 min", [], 0, 0⟩] "p1" =
      ⟨404, "Post não encontrado.", none⟩ :=
  ⟨(post_visibility_filter ⟨"Matheus", "professor"⟩
      [⟨"p1", "T", "C", "A", "D", false, "5 min", [], 0, 0⟩]).1 rfl,
   (post_visibility_filter ⟨"João", "aluno"⟩
      [⟨"p1", "T", "C", "A", "D", false, "5 min", [], 0, 0⟩]).2.2.2 (by decide)
      ⟨"p1", "T", "C", "A", "D", false, "5 min", [], 0, 0⟩ (by decide) rfl (by decide)⟩

/-- Counterexample to C9: with a student already holding dup@escola.com and
no teacher on that email, teacher creation succeeds with 201 and persists a
new record — the claimed cross-collection rejection does not exist in the
Teacher direction. -/
theorem createTeacher_accepts_student_email :
    (createTeacher (fun s => s) ⟨"Matheus", "professor"⟩
      ⟨[], [⟨"Pedro", "dup@escola.com", "h1", true, "ativo", 0⟩]⟩
      "João" "dup@escola.com" "senha123" none 1).status = 201 ∧
    (createTeacher (fun s => s) ⟨"Matheus", "professor"⟩
      ⟨[], [⟨"Pedro", "dup@escola.com", "h1", true, "ativo", 0⟩]⟩
      "João" "dup@escola.com" "senha123" none 1).db.teachers ≠ [] :=
  ⟨rfl, by decide⟩

/-- C9 (amended): student creation rejects with 400, leaving the store
unchanged, an email present in either collection; teacher creation rejects
with 400 only an email already present in the Teacher collection, and
otherwise appends a fresh teacher record even when a student holds that
email. -/
theorem create_principal_email_checks (hash : String → String) (u : AuthUser)
    (db : DB) (nm email pw : String) (act : Option Bool) (st : Option String)
    (now : Nat) (hprof : u.role = "professor") :
    (((findByEmail db.students email).isSome ∨ (findByEmail db.teachers email).isSome) →
      createStudent hash u db nm email pw act now = ⟨400, "Email já cadastrado.", db⟩) ∧
    ((findByEmail db.teachers email).isSome →
      createTeacher hash u db nm email pw st now = ⟨400, "Email já cadastrado.", db⟩) ∧
    (findByEmail db.teachers email = none →
      createTeacher hash u db nm email pw st now =
        ⟨201, "", { db with teachers := db.teachers ++
          [⟨nm, email, hash pw, true, st.getD "ativo", now⟩] }⟩) := by
  have hb : (u.role != "professor") = false := by simp [hprof]
  refine ⟨?_, ?_, ?_⟩
  · rintro (hs | ht)
    · simp [createStudent, hb, hs]
    · cases hstu : (findByEmail db.students email).isSome with
      | true => simp [createStudent, hb, hstu]
      | false => simp [createStudent, hb, hstu, ht]
  · intro ht
    simp [createTeacher, hb, ht]
  · intro ht
    simp [createTeacher, hb, ht]

/-- Witness for C9 (amended): creating a student under an email already held
by a teacher is rejected with 400 and the store is unchanged. -/
theorem create_principal_email_checks_witness :
    createStudent (fun s => s) ⟨"Matheus", "professor"⟩
      ⟨[⟨"Maria", "dup@escola.com", "h", true, "ativo", 0⟩], []⟩
      "Mariana" "dup@escola.com" "senha123" none 1 =
      ⟨400, "Email já cadastrado.",
        ⟨[⟨"Maria", "dup@escola.com", "h", true, "ativo", 0⟩], []⟩⟩ :=
  (create_principal_email_checks (fun s => s) ⟨"Matheus", "professor"⟩
    ⟨[⟨"Maria", "dup@escola.com", "h", true, "ativo", 0⟩], []⟩
    "Mariana" "dup@escola.com" "senha123" none none 1 rfl).1 (Or.inr (by decide))

/-- C10: with a student token, search returns every stored post whose title,
content, author or description matches the query, with no isActive filter —
an inactive post that the list endpoint hides from students is still
returned by search. -/
theorem search_ignores_active_flag (nm q : String) (posts : List Post) (p : Post)
    (hp : p ∈ posts)
    (hm : (ciMatches q p.title || ciMatches q p.content ||
           ciMatches q p.author || ciMatches q p.description) = true) :
    (searchPosts ⟨nm, "aluno"⟩ posts q).status = 200 ∧
    p ∈ (searchPosts ⟨nm, "aluno"⟩ posts q).posts ∧
    (p.isActive = false → p ∉ getAllPosts ⟨nm, "aluno"⟩ posts) := by
  have hres : searchPosts ⟨nm, "aluno"⟩ posts q =
      ⟨200, "", posts.filter (fun x =>
        ciMatches q x.title || ciMatches q x.content ||
        ciMatches q x.author || ciMatches q x.description)⟩ := rfl
  refine ⟨by rw [hres], ?_, ?_⟩
  · rw [hres]
    exact List.mem_filter.mpr ⟨hp, hm⟩
  · intro hinact hmem
    have hb : (("aluno" : String) == "professor") = false := by decide
    simp only [getAllPosts, hb, Bool.false_eq_true, if_false] at hmem
    have := (List.mem_filter.mp hmem).2
    rw [hinact] at this
    exact absurd this (by decide)

/-- Witness for C10: a concrete inactive post titled Node Rocks is returned
to a student searching for node. -/
theorem search_ignores_active_flag_witness :
    (searchPosts ⟨"João", "aluno"⟩
      [⟨"p1", "Node Rocks", "C", "A", "D", false, "5 min", [], 0, 0⟩] "node").status = 200 ∧
    (⟨"p1", "Node Rocks", "C", "A", "D", false, "5 min", [], 0, 0⟩ : Post) ∈
      (searchPosts ⟨"João", "aluno"⟩
        [⟨"p1", "Node Rocks", "C", "A", "D", false, "5 min", [], 0, 0⟩] "node").posts :=
  ⟨(search_ignores_active_flag "João" "node"
      [⟨"p1", "Node Rocks", "C", "A", "D", false, "5 min", [], 0, 0⟩]
      ⟨"p1", "Node Rocks", "C", "A", "D", false, "5 min", [], 0, 0⟩
      (by decide) (by decide)).1,
   (search_ignores_active_flag "João" "node"
      [⟨"p1", "Node Rocks", "C", "A", "D", false, "5 min", [], 0, 0⟩]
      ⟨"p1", "Node Rocks", "C", "A", "D", false, "5 min", [], 0, 0⟩
      (by decide) (by decide)).2.1⟩
